import Mathlib

/-!
Verification of the vehicle-control-panel simulation core
(`core/control_handler.py`, `core/data_loader.py`, and the
configuration round-trip in `main.py`).

Python floats are modelled as rationals (`ℚ`); Python's `round`
(round-half-to-even on the scaled value) is modelled exactly by
`pyround`.  Wall-clock time is passed explicitly to the step function,
and the random draws of a step are bundled into a `RandomDraws`
parameter, so the step is a pure function on the handler state.
-/

namespace VCP

/-- Round-half-to-even on a rational, returning an integer:
the model of Python's `round(x)` tie-breaking. -/
def rhe (x : ℚ) : ℤ :=
  let f : ℤ := ⌊x⌋
  let r : ℚ := x - f
  if r < 1/2 then f
  else if r > 1/2 then f + 1
  else if f % 2 = 0 then f else f + 1

/-- Model of Python's `round(x, n)`: scale by `10^n`, round half to even,
scale back. -/
def pyround (n : ℕ) (x : ℚ) : ℚ :=
  (rhe (x * 10 ^ n) : ℚ) / 10 ^ n

/-- The `VehicleData` dataclass of `core/data_loader.py`.  The
`maneuver_name` attribute is not a declared dataclass field: the Python
code attaches it dynamically (`start_maneuver` / `stop_maneuver` /
`reset_vehicle`); it is modelled as an `Option String` that is `none`
when the attribute has not been set or was set to Python `None`. -/
structure VehicleData where
  rpm : ℚ := 0
  speed_kmh : ℚ := 0
  odometer_km : ℚ := 0
  gear : String := "N"
  pos_x_m : ℚ := 0
  pos_y_m : ℚ := 0
  pos_z_m : ℚ := 0
  angle_roll_deg : ℚ := 0
  angle_pitch_deg : ℚ := 0
  angle_yaw_deg : ℚ := 0
  roll_rate_degs : ℚ := 0
  pitch_rate_degs : ℚ := 0
  yaw_rate_degs : ℚ := 0
  clutch_value : ℚ := 0
  break_value : ℚ := 0
  accel_value : ℚ := 0
  steering_wheel_angle : ℚ := 0
  vehicle_started : Bool := false
  maneuver_active : Bool := false
  maneuver_name : Option String := none
  deriving DecidableEq, Repr

/-- The predicate `VehicleData.validate` of `core/data_loader.py` (the `TypeError`
branch cannot arise in the typed model). -/
def VehicleData.validate (v : VehicleData) : Bool :=
  0 ≤ v.rpm && v.rpm ≤ 8000 &&
  0 ≤ v.speed_kmh && v.speed_kmh ≤ 300 &&
  -780 ≤ v.steering_wheel_angle && v.steering_wheel_angle ≤ 780 &&
  0 ≤ v.clutch_value && v.clutch_value ≤ 100 &&
  0 ≤ v.break_value && v.break_value ≤ 100 &&
  0 ≤ v.accel_value && v.accel_value ≤ 100

/-- A maneuver preset: the partial mapping from
`speed_kmh` / `steering_wheel_angle` / `break_value` to targets
(a `dict` in the source, so every key is optional). -/
structure Preset where
  speed_kmh : Option ℚ := none
  steering_wheel_angle : Option ℚ := none
  break_value : Option ℚ := none
  deriving DecidableEq, Repr

/-- The lookup of `name` in `ControlHandler.all_maneuver_presets` with an
empty-dict default:
the fixed catalogue, with `none` for a missing key (the empty dict,
which is falsy, so the step skips it). -/
def all_maneuver_presets_get (name : Option String) : Option Preset :=
  match name with
  | some ("Standard Cruise") => some { speed_kmh := some 60, steering_wheel_angle := some 0 }
  | some ("Sharp Turn") => some { steering_wheel_angle := some 300, speed_kmh := some 30 }
  | some ("Emergency Stop") => some { break_value := some 100, speed_kmh := some 0 }
  | _ => none

/-- The random draws consumed by one call of `simulate_vehicle_data`,
in source order: position jitter (`random.uniform(-0.05, 0.05)` each),
fresh roll/pitch/yaw angles, and rate jitter. -/
structure RandomDraws where
  dx : ℚ := 0
  dy : ℚ := 0
  dz : ℚ := 0
  roll : ℚ := 0
  pitch : ℚ := 0
  yaw : ℚ := 0
  drollRate : ℚ := 0
  dpitchRate : ℚ := 0
  dyawRate : ℚ := 0
  deriving DecidableEq, Repr

/-- The `ControlHandler` object state: the owned `VehicleData` plus the
simulation flags and the `_last_update_time` timestamp. -/
structure ControlHandler where
  vehicle_data : VehicleData
  simulation_enabled : Bool
  is_running : Bool := true
  is_paused : Bool := false
  last_update_time : ℚ := 0
  deriving DecidableEq, Repr

/-- The list `driving_gears` of `simulate_vehicle_data`, as a membership
test. -/
def isDrivingGear (g : String) : Bool :=
  g ∈ ["D", "R", "L", "1", "2", "3", "4", "5", "6"]

/-- The ("RPM simulation") block of `simulate_vehicle_data`: the three
accel/brake/idle branches followed by `round(rpm, 0)`. -/
def rpm_update (v : VehicleData) (delta_time : ℚ) : VehicleData :=
  let rpm1 :=
    if v.accel_value > 0 then
      min 8000 (v.rpm + v.accel_value * 5 * delta_time)
    else if v.break_value > 0 then
      max 0 (v.rpm - v.break_value * 2 * delta_time)
    else
      max 0 (v.rpm - 100 * delta_time)
  { v with rpm := pyround 0 rpm1 }

/-- The ("Speed simulation") block of `simulate_vehicle_data`: the
maneuver-preset branch, the accelerate/brake/decay branches, followed by
the unconditional `round(speed_kmh, 1)`. -/
def speed_update (v : VehicleData) (delta_time : ℚ) : VehicleData :=
  let vb :=
    if v.maneuver_active then
      match all_maneuver_presets_get v.maneuver_name with
      | some p =>
        let s := p.speed_kmh.getD v.speed_kmh
        let w := p.steering_wheel_angle.getD v.steering_wheel_angle
        let b := p.break_value.getD v.break_value
        { v with
          speed_kmh := s
          steering_wheel_angle := w
          break_value := b }
      | none => v
    else if v.accel_value > 0 && v.break_value == 0
        && isDrivingGear v.gear then
      let s := min 300 (v.speed_kmh + (v.accel_value / 10) * delta_time * 5)
      { v with speed_kmh := s }
    else if v.break_value > 0 then
      let s := max 0 (v.speed_kmh - (v.break_value / 5) * delta_time * 5)
      { v with speed_kmh := s }
    else if isDrivingGear v.gear && v.speed_kmh > 0 then
      { v with speed_kmh := max 0 (v.speed_kmh - 5 * delta_time) }
    else if v.gear == "N" || v.gear == "P" then
      { v with speed_kmh := 0 }
    else v
  { vb with speed_kmh := pyround 1 vb.speed_kmh }

/-- The ("Odometer") block of `simulate_vehicle_data`. -/
def odometer_update (v : VehicleData) (delta_time : ℚ) : VehicleData :=
  if v.speed_kmh > 0 then
    let o := pyround 3 (v.odometer_km + (v.speed_kmh / 3600) * delta_time)
    { v with odometer_km := o }
  else v

/-- The ("Position and angles") and ("Rates") blocks of
`simulate_vehicle_data`, with the random draws supplied as `r`. -/
def pose_update (v : VehicleData) (r : RandomDraws) : VehicleData :=
  { v with
    pos_x_m := pyround 3 (v.pos_x_m + r.dx)
    pos_y_m := pyround 3 (v.pos_y_m + r.dy)
    pos_z_m := pyround 3 (v.pos_z_m + r.dz)
    angle_roll_deg := pyround 1 r.roll
    angle_pitch_deg := pyround 1 r.pitch
    angle_yaw_deg := pyround 1 r.yaw
    roll_rate_degs := pyround 1 (234/10 + r.drollRate)
    pitch_rate_degs := pyround 1 (234/10 + r.dpitchRate)
    yaw_rate_degs := pyround 1 (1667/10 + r.dyawRate) }

/-- The final ("Ensure values stay within limits") block of
`simulate_vehicle_data`: the unconditional clamps. -/
def clamp_limits (v : VehicleData) : VehicleData :=
  { v with
    rpm := max 0 (min 8000 v.rpm)
    speed_kmh := max 0 (min 300 v.speed_kmh)
    clutch_value := max 0 (min 100 v.clutch_value)
    break_value := max 0 (min 100 v.break_value)
    accel_value := max 0 (min 100 v.accel_value)
    steering_wheel_angle := max (-780) (min 780 v.steering_wheel_angle) }

/-- The step `ControlHandler.simulate_vehicle_data`, with the current wall-clock
instant and the step's random draws passed explicitly.  Mirrors the
source: early return when disabled/not running/paused; when
`vehicle_started`, the rpm, speed, odometer and pose/rates blocks in
source order; finally the unconditional clamps, and the
`_last_update_time` write. -/
def simulate_vehicle_data (h : ControlHandler) (current_time : ℚ)
    (r : RandomDraws) : ControlHandler :=
  if !h.simulation_enabled || !h.is_running || h.is_paused then h
  else
    let delta_time := current_time - h.last_update_time
    let v0 := h.vehicle_data
    let v1 :=
      if v0.vehicle_started then
        pose_update
          (odometer_update (speed_update (rpm_update v0 delta_time) delta_time)
            delta_time) r
      else v0
    { h with vehicle_data := clamp_limits v1, last_update_time := current_time }

/-- The command `ControlHandler.set_gear`. -/
def set_gear (h : ControlHandler) (gear : String) : ControlHandler :=
  if h.vehicle_data.vehicle_started || gear ∈ ["P", "N"] then
    { h with vehicle_data := { h.vehicle_data with gear := gear } }
  else h

/-- The command `ControlHandler.start_maneuver` (the `maneuver_name` argument
defaults to Python `None`, i.e. `none`). -/
def start_maneuver (h : ControlHandler)
    (maneuver_name : Option String := none) : ControlHandler :=
  if h.vehicle_data.vehicle_started then
    { h with vehicle_data := { h.vehicle_data with
        maneuver_active := true, maneuver_name := maneuver_name } }
  else h

/-- The command `ControlHandler.stop_maneuver`. -/
def stop_maneuver (h : ControlHandler) : ControlHandler :=
  { h with vehicle_data := { h.vehicle_data with
      maneuver_active := false, maneuver_name := none } }

/-- A Python dict holding values for (a subset of) the 19 `VehicleData`
dataclass fields: the shape of the `vehicle_data` sub-record of the
configuration and of the `initial_data_dict` argument of
`reset_vehicle`.  A `none` field models an absent key. -/
structure InitDict where
  rpm : Option ℚ := none
  speed_kmh : Option ℚ := none
  odometer_km : Option ℚ := none
  gear : Option String := none
  pos_x_m : Option ℚ := none
  pos_y_m : Option ℚ := none
  pos_z_m : Option ℚ := none
  angle_roll_deg : Option ℚ := none
  angle_pitch_deg : Option ℚ := none
  angle_yaw_deg : Option ℚ := none
  roll_rate_degs : Option ℚ := none
  pitch_rate_degs : Option ℚ := none
  yaw_rate_degs : Option ℚ := none
  clutch_value : Option ℚ := none
  break_value : Option ℚ := none
  accel_value : Option ℚ := none
  steering_wheel_angle : Option ℚ := none
  vehicle_started : Option Bool := none
  maneuver_active_key : Option Bool := none
  deriving DecidableEq, Repr

/-- The `for key, value in initial_data_dict.items(): setattr(...)` loop:
each key present in the dict overwrites the corresponding field. -/
def applyInitDict (v : VehicleData) (d : InitDict) : VehicleData :=
  { v with
    rpm := d.rpm.getD v.rpm
    speed_kmh := d.speed_kmh.getD v.speed_kmh
    odometer_km := d.odometer_km.getD v.odometer_km
    gear := d.gear.getD v.gear
    pos_x_m := d.pos_x_m.getD v.pos_x_m
    pos_y_m := d.pos_y_m.getD v.pos_y_m
    pos_z_m := d.pos_z_m.getD v.pos_z_m
    angle_roll_deg := d.angle_roll_deg.getD v.angle_roll_deg
    angle_pitch_deg := d.angle_pitch_deg.getD v.angle_pitch_deg
    angle_yaw_deg := d.angle_yaw_deg.getD v.angle_yaw_deg
    roll_rate_degs := d.roll_rate_degs.getD v.roll_rate_degs
    pitch_rate_degs := d.pitch_rate_degs.getD v.pitch_rate_degs
    yaw_rate_degs := d.yaw_rate_degs.getD v.yaw_rate_degs
    clutch_value := d.clutch_value.getD v.clutch_value
    break_value := d.break_value.getD v.break_value
    accel_value := d.accel_value.getD v.accel_value
    steering_wheel_angle := d.steering_wheel_angle.getD v.steering_wheel_angle
    vehicle_started := d.vehicle_started.getD v.vehicle_started
    maneuver_active := d.maneuver_active_key.getD v.maneuver_active }

/-- The command `ControlHandler.reset_vehicle`, with the wall-clock instant of the
call (`time.time()`) passed explicitly: apply the dict, then force
`vehicle_started`/`maneuver_active` false and `maneuver_name` `None`,
resume running/unpaused, and reset the step timer. -/
def reset_vehicle (h : ControlHandler) (initial_data_dict : InitDict)
    (now : ℚ) : ControlHandler :=
  let v1 := applyInitDict h.vehicle_data initial_data_dict
  let v2 := { v1 with
    vehicle_started := false
    maneuver_active := false
    maneuver_name := none }
  { h with
    vehicle_data := v2
    is_running := true
    is_paused := false
    last_update_time := now }

/-- The command `ControlHandler.toggle_pause`. -/
def toggle_pause (h : ControlHandler) : ControlHandler :=
  { h with is_paused := !h.is_paused }

/-- The command `ControlHandler.stop_simulation`. -/
def stop_simulation (h : ControlHandler) : ControlHandler :=
  { h with
    is_running := false
    is_paused := false
    vehicle_data := { h.vehicle_data with
      vehicle_started := false, rpm := 0, speed_kmh := 0, gear := "P" } }

/-- The command `ControlHandler.set_clutch_value`. -/
def set_clutch_value (h : ControlHandler) (value : ℚ) : ControlHandler :=
  { h with vehicle_data := { h.vehicle_data with clutch_value := value } }

/-- The command `ControlHandler.set_break_value`. -/
def set_break_value (h : ControlHandler) (value : ℚ) : ControlHandler :=
  { h with vehicle_data := { h.vehicle_data with break_value := value } }

/-- The command `ControlHandler.set_accel_value`. -/
def set_accel_value (h : ControlHandler) (value : ℚ) : ControlHandler :=
  { h with vehicle_data := { h.vehicle_data with accel_value := value } }

/-- The command `ControlHandler.set_steering_wheel_angle`. -/
def set_steering_wheel_angle (h : ControlHandler) (angle : ℚ) : ControlHandler :=
  { h with vehicle_data := { h.vehicle_data with steering_wheel_angle := angle } }

/-- The command `ControlHandler.toggle_vehicle_power`. -/
def toggle_vehicle_power (h : ControlHandler) : ControlHandler :=
  let v1 := { h.vehicle_data with vehicle_started := !h.vehicle_data.vehicle_started }
  let v2 :=
    if !v1.vehicle_started then
      { v1 with rpm := 0, speed_kmh := 0, gear := "P" }
    else v1
  { h with vehicle_data := v2 }

/-! ### Configuration manager (`core/data_loader.py`) and the
save/load round trip of `main.py`.

The JSON file system is modelled as a map from paths to file contents;
a stored file either parses back to the configuration it was written
from (`valid`) or is malformed. -/

/-- A configuration record: the recognized top-level keys plus the
`vehicle_data` sub-record. -/
structure Config where
  refresh_rate : ℤ := 1000
  simulation_enabled : Bool := true
  debug_mode : Bool := false
  vehicle_data : InitDict := {}
  deriving DecidableEq, Repr

/-- Contents of a stored configuration file: either a record that
parses, or malformed text (`json.JSONDecodeError` on load). -/
inductive FileContent where
  | valid (c : Config)
  | malformed
  deriving DecidableEq, Repr

/-- The file system: `none` is an absent file. -/
def FS : Type := String → Option FileContent

/-- Writing a file at a path whose parent directories exist. -/
def writeFile (fs : FS) (path : String) (c : FileContent) : FS :=
  fun q => if q = path then some c else fs q

/-- An uncaught Python exception escaping `ConfigManager`. -/
inductive PyError where
  | fileNotFound
  deriving DecidableEq, Repr

/-- Does `os.path.dirname(p)` name a (nonempty) parent directory?  On a
POSIX path this holds exactly when `p` contains a slash.  For a bare
filename `os.path.dirname` is the empty string, and
`os.makedirs('', exist_ok=True)` raises `FileNotFoundError`; directory
creation for a nonempty dirname is assumed to succeed in this model. -/
def has_parent_dir (p : String) : Bool :=
  p.data.contains ('/')

/-- The record `ConfigManager._get_default_config` returns (`vehicle_data`
defaults per the
source literal). -/
def default_config_record : Config :=
  { refresh_rate := 1000
    simulation_enabled := true
    debug_mode := false
    vehicle_data :=
      { rpm := some 1500
        speed_kmh := some 45
        odometer_km := some 0
        gear := some ("N")
        clutch_value := some 0
        break_value := some 0
        accel_value := some (23/5)
        pos_x_m := some 3400
        pos_y_m := some 3400
        pos_z_m := some 3400
        angle_roll_deg := some 0
        angle_pitch_deg := some 0
        angle_yaw_deg := some 0
        roll_rate_degs := some (17/5)
        pitch_rate_degs := some (17/5)
        yaw_rate_degs := some (1667/10)
        steering_wheel_angle := some 60
        vehicle_started := some false
        maneuver_active_key := some false } }

/-- The `ConfigManager` object state: the configured default path and the in-memory
default configuration (`_get_default_config()`). -/
structure ConfigManager where
  config_file : String := "data/config.json"
  default_config : Config := default_config_record

/-- The method `ConfigManager.save_config`: overwrite the destination
(`file_path or self.config_file`) with the record.  The
`os.makedirs(os.path.dirname(config_file), exist_ok=True)` call sits
OUTSIDE the `try`, so a destination with an empty dirname (a bare
filename) raises `FileNotFoundError` before anything is written; write
errors inside the `try` are caught and logged. -/
def save_config (cm : ConfigManager) (fs : FS) (config : Config)
    (file_path : Option String := none) : Except PyError FS :=
  let config_file := file_path.getD cm.config_file
  if has_parent_dir config_file then
    Except.ok (writeFile fs config_file (FileContent.valid config))
  else Except.error PyError.fileNotFound

/-- The method `ConfigManager.load_config`: returns the updated file
system and the loaded record, or the escaping exception.  When the file
is absent the source first runs the uncaught
`os.makedirs(os.path.dirname(config_file), exist_ok=True)` — which
raises `FileNotFoundError` when the requested path is a bare filename —
and then calls `self.save_config(self.default_config)` with no path
argument, so the defaults are written to `self.config_file` (not to the
requested path), raising in turn if `self.config_file` is a bare
filename.  A malformed file is left untouched and the defaults are
returned; a parsed file is returned as loaded. -/
def load_config (cm : ConfigManager) (fs : FS)
    (file_path : Option String := none) : Except PyError (FS × Config) :=
  let config_file := file_path.getD cm.config_file
  match fs config_file with
  | none =>
    if has_parent_dir config_file then
      match save_config cm fs cm.default_config with
      | Except.ok fs2 => Except.ok (fs2, cm.default_config)
      | Except.error e => Except.error e
    else Except.error PyError.fileNotFound
  | some (FileContent.valid c) => Except.ok (fs, c)
  | some FileContent.malformed => Except.ok (fs, cm.default_config)

/-- The `vehicle_data` dict literal built by
`VehicleControlPanel.save_config_dialog` in `main.py`: every dataclass
field of the current `VehicleData`, keyed by name. -/
def vehicleDataToDict (v : VehicleData) : InitDict :=
  { rpm := some v.rpm
    speed_kmh := some v.speed_kmh
    odometer_km := some v.odometer_km
    gear := some v.gear
    pos_x_m := some v.pos_x_m
    pos_y_m := some v.pos_y_m
    pos_z_m := some v.pos_z_m
    angle_roll_deg := some v.angle_roll_deg
    angle_pitch_deg := some v.angle_pitch_deg
    angle_yaw_deg := some v.angle_yaw_deg
    roll_rate_degs := some v.roll_rate_degs
    pitch_rate_degs := some v.pitch_rate_degs
    yaw_rate_degs := some v.yaw_rate_degs
    clutch_value := some v.clutch_value
    break_value := some v.break_value
    accel_value := some v.accel_value
    steering_wheel_angle := some v.steering_wheel_angle
    vehicle_started := some v.vehicle_started
    maneuver_active_key := some v.maneuver_active }

/-- Construction `VehicleData(**d)` as used by `load_config_dialog` in `main.py`:
construct a fresh `VehicleData`, taking present keys from the dict and
dataclass defaults for absent ones. -/
def VehicleData.ofDict (d : InitDict) : VehicleData :=
  applyInitDict {} d

/-! ### Concrete sample states, step sequences, and dict predicates
used by the theorems and their witnesses below. -/

/-- A sample pre-step state for witnesses: extreme out-of-range values
written by the setters, simulation enabled and running. -/
def sampleWild : ControlHandler :=
  { vehicle_data :=
      { vehicle_started := true
        gear := "D"
        rpm := 9999999
        speed_kmh := 5000
        clutch_value := -3
        break_value := 400
        accel_value := 1000
        steering_wheel_angle := 100000 }
    simulation_enabled := true
    is_running := true
    is_paused := false
    last_update_time := 0 }

/-- A paused handler for the no-op witness. -/
def samplePaused : ControlHandler :=
  { vehicle_data := { vehicle_started := true, gear := "D", speed_kmh := 77 }
    simulation_enabled := true
    is_running := true
    is_paused := true
    last_update_time := 4 }

/-- The scenario of the spec: started, gear D, 50% accel, everything
else zero. -/
def sampleScenario : ControlHandler :=
  { vehicle_data := { vehicle_started := true, gear := "D", accel_value := 50 }
    simulation_enabled := true
    is_running := true
    is_paused := false
    last_update_time := 0 }

/-- A started handler with nonzero control inputs, shared by the
maneuver witnesses. -/
def sampleDriving : ControlHandler :=
  { vehicle_data :=
      { vehicle_started := true
        gear := "D"
        accel_value := 77
        speed_kmh := 120
        steering_wheel_angle := 42 }
    simulation_enabled := true
    is_running := true
    is_paused := false
    last_update_time := 0 }

/-- A powered-off handler in the default state. -/
def sampleOff : ControlHandler :=
  { vehicle_data := {}
    simulation_enabled := true }

/-- Does the dict provide all six validated fields, with values inside
`validate`'s documented ranges?  (The model of ("the initial-state record
itself satisfies validate()").) -/
def InitDict.validRanges (d : InitDict) : Bool :=
  (d.rpm.any fun x => 0 ≤ x && x ≤ 8000) &&
  (d.speed_kmh.any fun x => 0 ≤ x && x ≤ 300) &&
  (d.steering_wheel_angle.any fun x => -780 ≤ x && x ≤ 780) &&
  (d.clutch_value.any fun x => 0 ≤ x && x ≤ 100) &&
  (d.break_value.any fun x => 0 ≤ x && x ≤ 100) &&
  (d.accel_value.any fun x => 0 ≤ x && x ≤ 100)

/-- An idle handler for the reset theorems. -/
def sampleResetPre : ControlHandler :=
  { vehicle_data := {}
    simulation_enabled := true }

/-- A reset dict that names `vehicle_started` with value `true`. -/
def sampleStartedDict : InitDict :=
  { vehicle_started := some true }

/-- A finite sequence of `simulate_vehicle_data` calls, each with its
wall-clock instant and random draws. -/
def stepSeq (h : ControlHandler) : List (ℚ × RandomDraws) → ControlHandler
  | [] => h
  | (t, r) :: rest => stepSeq (simulate_vehicle_data h t r) rest

/-- Every call of the sequence observes a nonnegative elapsed `dt`
(its instant is not before the handler's step-timer reference at that
point). -/
def dts_nonneg (h : ControlHandler) : List (ℚ × RandomDraws) → Prop
  | [] => True
  | (t, r) :: rest =>
    h.last_update_time ≤ t ∧ dts_nonneg (simulate_vehicle_data h t r) rest

/-- A rolling handler whose odometer is off the 3-decimal grid
(0.0004 km, e.g. written by a reset from a configuration record). -/
def sampleOdoDrift : ControlHandler :=
  { vehicle_data :=
      { vehicle_started := true
        gear := "D"
        speed_kmh := 1/10
        odometer_km := 1/2500 }
    simulation_enabled := true
    is_running := true
    is_paused := false
    last_update_time := 0 }

/-- The empty file system. -/
def sampleFSEmpty : FS := fun _ => none

/-- A config manager with the source defaults
(`data/config.json`, `_get_default_config()`). -/
def sampleCM : ConfigManager := {}

/-- A handler with an active maneuver whose name is not one of the
three catalogue keys, and a speed not at 1-decimal resolution. -/
def sampleUnknown : ControlHandler :=
  { vehicle_data :=
      { vehicle_started := true
        gear := "D"
        speed_kmh := 41/4
        maneuver_active := true
        maneuver_name := some ("Nonsense") }
    simulation_enabled := true
    is_running := true
    is_paused := false
    last_update_time := 0 }

/-! ### Basic properties of the rounding and clamping operations -/

theorem floor_le_rhe (x : ℚ) : ⌊x⌋ ≤ rhe x := by
  simp only [rhe]
  split_ifs <;> omega

theorem rhe_le_ceil (x : ℚ) : rhe x ≤ ⌈x⌉ := by
  simp only [rhe]
  split_ifs with h1 h2 h3
  · exact Int.floor_le_ceil x
  · have hx : (⌊x⌋ : ℚ) < x := by linarith
    have : ⌊x⌋ < ⌈x⌉ := Int.lt_ceil.mpr hx
    omega
  · exact Int.floor_le_ceil x
  · have hr : x - ⌊x⌋ = 1/2 := le_antisymm (not_lt.mp h2) (not_lt.mp h1)
    have hx : (⌊x⌋ : ℚ) < x := by linarith
    have : ⌊x⌋ < ⌈x⌉ := Int.lt_ceil.mpr hx
    omega

theorem pyround_nonneg {n : ℕ} {x : ℚ} (h : 0 ≤ x) : 0 ≤ pyround n x := by
  unfold pyround
  have h1 : (0 : ℚ) ≤ x * 10 ^ n := by positivity
  have h2 : (0 : ℤ) ≤ ⌊x * 10 ^ n⌋ := Int.floor_nonneg.mpr h1
  have h3 : (0 : ℤ) ≤ rhe (x * 10 ^ n) := le_trans h2 (floor_le_rhe _)
  have h4 : (0 : ℚ) ≤ (rhe (x * 10 ^ n) : ℚ) := Int.cast_nonneg.mpr h3
  positivity

theorem pyround_le_int {n : ℕ} {x : ℚ} {k : ℤ} (h : x ≤ (k : ℚ)) :
    pyround n x ≤ (k : ℚ) := by
  unfold pyround
  have hpow : (0 : ℚ) < 10 ^ n := by positivity
  have h1 : x * 10 ^ n ≤ (k : ℚ) * 10 ^ n :=
    mul_le_mul_of_nonneg_right h (le_of_lt hpow)
  have h2 : ⌈x * 10 ^ n⌉ ≤ k * 10 ^ n := by
    apply Int.ceil_le.mpr
    push_cast
    exact h1
  have h3 : rhe (x * 10 ^ n) ≤ k * 10 ^ n := le_trans (rhe_le_ceil _) h2
  have h4 : (rhe (x * 10 ^ n) : ℚ) ≤ (k : ℚ) * 10 ^ n := by
    calc (rhe (x * 10 ^ n) : ℚ) ≤ ((k * 10 ^ n : ℤ) : ℚ) := Int.cast_le.mpr h3
    _ = (k : ℚ) * 10 ^ n := by push_cast; ring
  calc (rhe (x * 10 ^ n) : ℚ) / 10 ^ n ≤ ((k : ℚ) * 10 ^ n) / 10 ^ n :=
        div_le_div_of_nonneg_right h4 (le_of_lt hpow)
  _ = (k : ℚ) := mul_div_cancel_right₀ _ (ne_of_gt hpow)

theorem le_pyround_of_int_mul {n : ℕ} {x y : ℚ} {m : ℤ}
    (hx : x * 10 ^ n = (m : ℚ)) (hxy : x ≤ y) : x ≤ pyround n y := by
  unfold pyround
  have hpow : (0 : ℚ) < 10 ^ n := by positivity
  have h1 : (m : ℚ) ≤ y * 10 ^ n := by
    rw [← hx]
    exact mul_le_mul_of_nonneg_right hxy (le_of_lt hpow)
  have h2 : m ≤ ⌊y * 10 ^ n⌋ := Int.le_floor.mpr h1
  have h3 : m ≤ rhe (y * 10 ^ n) := le_trans h2 (floor_le_rhe _)
  have h4 : x = (m : ℚ) / 10 ^ n := by
    field_simp at hx ⊢
    linarith [hx]
  rw [h4]
  exact div_le_div_of_nonneg_right (Int.cast_le.mpr h3) (le_of_lt hpow)

theorem pyround_mul_pow (n : ℕ) (y : ℚ) :
    pyround n y * 10 ^ n = (rhe (y * 10 ^ n) : ℚ) := by
  unfold pyround
  field_simp

theorem clamp_id {lo hi x : ℚ} (h1 : lo ≤ x) (h2 : x ≤ hi) :
    max lo (min hi x) = x := by
  rw [min_eq_right h2, max_eq_right h1]

/-! ### Frame lemmas for the step blocks -/

theorem rpm_update_speed (v : VehicleData) (dt : ℚ) :
    (rpm_update v dt).speed_kmh = v.speed_kmh := rfl

theorem rpm_update_eq (v : VehicleData) (dt : ℚ) :
    rpm_update v dt = { v with rpm := (rpm_update v dt).rpm } := rfl

theorem speed_update_rpm (v : VehicleData) (dt : ℚ) :
    (speed_update v dt).rpm = v.rpm := by
  unfold speed_update
  split
  · split <;> rfl
  · split_ifs <;> rfl

theorem speed_update_odometer (v : VehicleData) (dt : ℚ) :
    (speed_update v dt).odometer_km = v.odometer_km := by
  unfold speed_update
  split
  · split <;> rfl
  · split_ifs <;> rfl

theorem odometer_update_speed (v : VehicleData) (dt : ℚ) :
    (odometer_update v dt).speed_kmh = v.speed_kmh := by
  unfold odometer_update
  split <;> rfl

theorem odometer_update_rpm (v : VehicleData) (dt : ℚ) :
    (odometer_update v dt).rpm = v.rpm := by
  unfold odometer_update
  split <;> rfl

theorem pose_update_rpm (v : VehicleData) (r : RandomDraws) :
    (pose_update v r).rpm = v.rpm := rfl

theorem pose_update_speed (v : VehicleData) (r : RandomDraws) :
    (pose_update v r).speed_kmh = v.speed_kmh := rfl

theorem pose_update_odometer (v : VehicleData) (r : RandomDraws) :
    (pose_update v r).odometer_km = v.odometer_km := rfl

theorem clamp_limits_odometer (v : VehicleData) :
    (clamp_limits v).odometer_km = v.odometer_km := rfl

/-- The guard of `simulate_vehicle_data`: when the simulation is
disabled, stopped or paused, the call returns with no change at all. -/
theorem simulate_inactive (h : ControlHandler) (t : ℚ) (r : RandomDraws)
    (hg : h.simulation_enabled = false ∨ h.is_running = false ∨
      h.is_paused = true) :
    simulate_vehicle_data h t r = h := by
  unfold simulate_vehicle_data
  rcases hg with hg | hg | hg <;> simp [hg]

/-- The shape of an effective step. -/
theorem simulate_active (h : ControlHandler) (t : ℚ) (r : RandomDraws)
    (he : h.simulation_enabled = true) (hr : h.is_running = true)
    (hp : h.is_paused = false) :
    simulate_vehicle_data h t r =
      { h with
        vehicle_data := clamp_limits
          (if h.vehicle_data.vehicle_started then
            pose_update
              (odometer_update
                (speed_update (rpm_update h.vehicle_data (t - h.last_update_time))
                  (t - h.last_update_time))
                (t - h.last_update_time)) r
          else h.vehicle_data)
        last_update_time := t } := by
  unfold simulate_vehicle_data
  simp [he, hr, hp]

theorem validate_clamp_limits (v : VehicleData) :
    (clamp_limits v).validate = true := by
  simp only [VehicleData.validate, clamp_limits, Bool.and_eq_true,
    decide_eq_true_eq]
  repeat' apply And.intro
  all_goals first
    | exact le_max_left _ _
    | exact max_le (by norm_num) (min_le_left _ _)

/-- Claim C1: for every `dt ≥ 0`, a step from a pre-state satisfying
`validate` lands in a state whose rpm, speed, clutch, brake, accel and
steering are within the documented ranges; and whenever the simulation
is enabled, running and unpaused, those post-step bounds hold for every
pre-state whatsoever (the final clamp enforces them). -/
theorem clamp_invariant_step (h : ControlHandler) (t : ℚ) (r : RandomDraws)
    (hdt : h.last_update_time ≤ t) :
    (h.vehicle_data.validate = true →
      (simulate_vehicle_data h t r).vehicle_data.validate = true)
    ∧ (h.simulation_enabled = true → h.is_running = true → h.is_paused = false →
      (simulate_vehicle_data h t r).vehicle_data.validate = true) := by
  constructor
  · intro hv
    cases he : h.simulation_enabled with
    | false => rw [simulate_inactive h t r (Or.inl he)]; exact hv
    | true =>
      cases hr : h.is_running with
      | false => rw [simulate_inactive h t r (Or.inr (Or.inl hr))]; exact hv
      | true =>
        cases hp : h.is_paused with
        | true => rw [simulate_inactive h t r (Or.inr (Or.inr hp))]; exact hv
        | false => rw [simulate_active h t r he hr hp]; exact validate_clamp_limits _
  · intro he hr hp
    rw [simulate_active h t r he hr hp]
    exact validate_clamp_limits _

theorem clamp_invariant_step_witness :
    (simulate_vehicle_data sampleWild 1 {}).vehicle_data.validate = true :=
  (clamp_invariant_step sampleWild 1 {} (by norm_num [sampleWild])).2 rfl rfl rfl

/-- Claim C7: when the simulation is disabled, not running, or paused, the
step is a complete no-op: the handler (every `VehicleData` field and
the `_last_update_time` reference) is returned unchanged. -/
theorem step_noop_when_inactive (h : ControlHandler) (t : ℚ) (r : RandomDraws)
    (hg : h.simulation_enabled = false ∨ h.is_running = false ∨
      h.is_paused = true) :
    (simulate_vehicle_data h t r).vehicle_data = h.vehicle_data
    ∧ (simulate_vehicle_data h t r).last_update_time = h.last_update_time
    ∧ simulate_vehicle_data h t r = h := by
  rw [simulate_inactive h t r hg]
  exact ⟨rfl, rfl, rfl⟩

theorem step_noop_when_inactive_witness :
    simulate_vehicle_data samplePaused 9 {} = samplePaused :=
  (step_noop_when_inactive samplePaused 9 {} (Or.inr (Or.inr rfl))).2.2

/-! ### More frame lemmas, used to trace single fields through a step -/

theorem rpm_update_accel (v : VehicleData) (dt : ℚ) :
    (rpm_update v dt).accel_value = v.accel_value := rfl
theorem rpm_update_break (v : VehicleData) (dt : ℚ) :
    (rpm_update v dt).break_value = v.break_value := rfl
theorem rpm_update_gear (v : VehicleData) (dt : ℚ) :
    (rpm_update v dt).gear = v.gear := rfl
theorem rpm_update_active (v : VehicleData) (dt : ℚ) :
    (rpm_update v dt).maneuver_active = v.maneuver_active := rfl
theorem rpm_update_name (v : VehicleData) (dt : ℚ) :
    (rpm_update v dt).maneuver_name = v.maneuver_name := rfl
theorem rpm_update_steering (v : VehicleData) (dt : ℚ) :
    (rpm_update v dt).steering_wheel_angle = v.steering_wheel_angle := rfl
theorem odometer_update_break (v : VehicleData) (dt : ℚ) :
    (odometer_update v dt).break_value = v.break_value := by
  unfold odometer_update
  split <;> rfl
theorem odometer_update_steering (v : VehicleData) (dt : ℚ) :
    (odometer_update v dt).steering_wheel_angle = v.steering_wheel_angle := by
  unfold odometer_update
  split <;> rfl
theorem pose_update_break (v : VehicleData) (r : RandomDraws) :
    (pose_update v r).break_value = v.break_value := rfl
theorem pose_update_steering (v : VehicleData) (r : RandomDraws) :
    (pose_update v r).steering_wheel_angle = v.steering_wheel_angle := rfl
theorem clamp_limits_rpm (v : VehicleData) :
    (clamp_limits v).rpm = max 0 (min 8000 v.rpm) := rfl
theorem clamp_limits_speed (v : VehicleData) :
    (clamp_limits v).speed_kmh = max 0 (min 300 v.speed_kmh) := rfl
theorem clamp_limits_break (v : VehicleData) :
    (clamp_limits v).break_value = max 0 (min 100 v.break_value) := rfl
theorem clamp_limits_steering (v : VehicleData) :
    (clamp_limits v).steering_wheel_angle =
      max (-780) (min 780 v.steering_wheel_angle) := rfl

theorem pyround_zero (n : ℕ) : pyround n 0 = 0 := by
  norm_num [pyround, rhe]

/-- The rpm block, written with the branch selected by the control
inputs. -/
theorem rpm_update_rpm (v : VehicleData) (dt : ℚ) :
    (rpm_update v dt).rpm = pyround 0
      (if 0 < v.accel_value then min 8000 (v.rpm + v.accel_value * 5 * dt)
       else if 0 < v.break_value then max 0 (v.rpm - v.break_value * 2 * dt)
       else max 0 (v.rpm - 100 * dt)) := rfl

/-- The speed block with no active maneuver: the control-input-driven
branches followed by the rounding to one decimal. -/
theorem speed_update_speed_noman (v : VehicleData) (dt : ℚ)
    (hm : v.maneuver_active = false) :
    (speed_update v dt).speed_kmh = pyround 1
      (if 0 < v.accel_value ∧ v.break_value = 0 ∧ isDrivingGear v.gear = true then
        min 300 (v.speed_kmh + (v.accel_value / 10) * dt * 5)
      else if 0 < v.break_value then
        max 0 (v.speed_kmh - (v.break_value / 5) * dt * 5)
      else if isDrivingGear v.gear = true ∧ 0 < v.speed_kmh then
        max 0 (v.speed_kmh - 5 * dt)
      else if v.gear = "N" ∨ v.gear = "P" then 0
      else v.speed_kmh) := by
  unfold speed_update
  rw [hm]
  simp only [Bool.false_eq_true, if_false, gt_iff_lt, Bool.and_eq_true,
    decide_eq_true_eq, beq_iff_eq, Bool.or_eq_true, and_assoc]
  congr 1
  split_ifs <;> rfl

/-- Claim C2: drivetrain update law of one effective step with the vehicle
started and no active maneuver, for a valid pre-state and `dt ≥ 0`:
rpm follows the accel/brake/idle branch rounded to a whole unit, and
speed follows the accelerate/brake/decay/snap branch rounded to one
decimal (the final clamp is inert on these values). -/
theorem drivetrain_step_law (h : ControlHandler) (t : ℚ) (r : RandomDraws)
    (he : h.simulation_enabled = true) (hr : h.is_running = true)
    (hp : h.is_paused = false)
    (hstart : h.vehicle_data.vehicle_started = true)
    (hman : h.vehicle_data.maneuver_active = false)
    (hdt : h.last_update_time ≤ t)
    (hv : h.vehicle_data.validate = true) :
    (simulate_vehicle_data h t r).vehicle_data.rpm = pyround 0
      (if 0 < h.vehicle_data.accel_value then
        min 8000 (h.vehicle_data.rpm +
          h.vehicle_data.accel_value * 5 * (t - h.last_update_time))
      else if 0 < h.vehicle_data.break_value then
        max 0 (h.vehicle_data.rpm -
          h.vehicle_data.break_value * 2 * (t - h.last_update_time))
      else max 0 (h.vehicle_data.rpm - 100 * (t - h.last_update_time)))
    ∧ (simulate_vehicle_data h t r).vehicle_data.speed_kmh = pyround 1
      (if 0 < h.vehicle_data.accel_value ∧ h.vehicle_data.break_value = 0
          ∧ isDrivingGear h.vehicle_data.gear = true then
        min 300 (h.vehicle_data.speed_kmh +
          (h.vehicle_data.accel_value / 10) * (t - h.last_update_time) * 5)
      else if 0 < h.vehicle_data.break_value then
        max 0 (h.vehicle_data.speed_kmh -
          (h.vehicle_data.break_value / 5) * (t - h.last_update_time) * 5)
      else if isDrivingGear h.vehicle_data.gear = true
          ∧ 0 < h.vehicle_data.speed_kmh then
        max 0 (h.vehicle_data.speed_kmh - 5 * (t - h.last_update_time))
      else if h.vehicle_data.gear = "N" ∨ h.vehicle_data.gear = "P" then 0
      else h.vehicle_data.speed_kmh) := by
  have hdt0 : (0:ℚ) ≤ t - h.last_update_time := sub_nonneg.mpr hdt
  have hv' := hv
  simp only [VehicleData.validate, Bool.and_eq_true, decide_eq_true_eq,
    and_assoc] at hv'
  obtain ⟨hrpm0, hrpm1, hsp0, hsp1, hst0, hst1, hcl0, hcl1, hbr0, hbr1,
    hac0, hac1⟩ := hv'
  rw [simulate_active h t r he hr hp]
  constructor
  · simp only [hstart, if_true, clamp_limits_rpm, pose_update_rpm,
      odometer_update_rpm, speed_update_rpm, rpm_update_rpm]
    have hb : (0:ℚ) ≤
        (if 0 < h.vehicle_data.accel_value then
          min 8000 (h.vehicle_data.rpm +
            h.vehicle_data.accel_value * 5 * (t - h.last_update_time))
        else if 0 < h.vehicle_data.break_value then
          max 0 (h.vehicle_data.rpm -
            h.vehicle_data.break_value * 2 * (t - h.last_update_time))
        else max 0 (h.vehicle_data.rpm - 100 * (t - h.last_update_time)))
        ∧ (if 0 < h.vehicle_data.accel_value then
          min 8000 (h.vehicle_data.rpm +
            h.vehicle_data.accel_value * 5 * (t - h.last_update_time))
        else if 0 < h.vehicle_data.break_value then
          max 0 (h.vehicle_data.rpm -
            h.vehicle_data.break_value * 2 * (t - h.last_update_time))
        else max 0 (h.vehicle_data.rpm - 100 * (t - h.last_update_time)))
          ≤ ((8000:ℤ):ℚ) := by
      have haux : (0:ℚ) ≤
          h.vehicle_data.accel_value * 5 * (t - h.last_update_time) :=
        mul_nonneg (mul_nonneg hac0 (by norm_num)) hdt0
      have haux2 : (0:ℚ) ≤
          h.vehicle_data.break_value * 2 * (t - h.last_update_time) :=
        mul_nonneg (mul_nonneg hbr0 (by norm_num)) hdt0
      have haux3 : (0:ℚ) ≤ 100 * (t - h.last_update_time) :=
        mul_nonneg (by norm_num) hdt0
      push_cast
      split_ifs with h1 h2
      · exact ⟨le_min (by norm_num) (by linarith), min_le_left _ _⟩
      · exact ⟨le_max_left _ _, max_le (by norm_num) (by linarith)⟩
      · exact ⟨le_max_left _ _, max_le (by norm_num) (by linarith)⟩
    rw [show (8000:ℚ) = ((8000:ℤ):ℚ) by norm_num] at hb ⊢
    exact clamp_id (pyround_nonneg hb.1) (pyround_le_int hb.2)
  · simp only [hstart, if_true, clamp_limits_speed, pose_update_speed,
      odometer_update_speed]
    rw [speed_update_speed_noman _ _ (by rw [rpm_update_active]; exact hman)]
    simp only [rpm_update_accel, rpm_update_break, rpm_update_gear,
      rpm_update_speed]
    have hb : (0:ℚ) ≤
        (if 0 < h.vehicle_data.accel_value ∧ h.vehicle_data.break_value = 0
            ∧ isDrivingGear h.vehicle_data.gear = true then
          min 300 (h.vehicle_data.speed_kmh +
            (h.vehicle_data.accel_value / 10) * (t - h.last_update_time) * 5)
        else if 0 < h.vehicle_data.break_value then
          max 0 (h.vehicle_data.speed_kmh -
            (h.vehicle_data.break_value / 5) * (t - h.last_update_time) * 5)
        else if isDrivingGear h.vehicle_data.gear = true
            ∧ 0 < h.vehicle_data.speed_kmh then
          max 0 (h.vehicle_data.speed_kmh - 5 * (t - h.last_update_time))
        else if h.vehicle_data.gear = "N" ∨ h.vehicle_data.gear = "P" then 0
        else h.vehicle_data.speed_kmh)
        ∧ (if 0 < h.vehicle_data.accel_value ∧ h.vehicle_data.break_value = 0
            ∧ isDrivingGear h.vehicle_data.gear = true then
          min 300 (h.vehicle_data.speed_kmh +
            (h.vehicle_data.accel_value / 10) * (t - h.last_update_time) * 5)
        else if 0 < h.vehicle_data.break_value then
          max 0 (h.vehicle_data.speed_kmh -
            (h.vehicle_data.break_value / 5) * (t - h.last_update_time) * 5)
        else if isDrivingGear h.vehicle_data.gear = true
            ∧ 0 < h.vehicle_data.speed_kmh then
          max 0 (h.vehicle_data.speed_kmh - 5 * (t - h.last_update_time))
        else if h.vehicle_data.gear = "N" ∨ h.vehicle_data.gear = "P" then 0
        else h.vehicle_data.speed_kmh) ≤ ((300:ℤ):ℚ) := by
      have haux : (0:ℚ) ≤
          (h.vehicle_data.accel_value / 10) * (t - h.last_update_time) * 5 :=
        mul_nonneg (mul_nonneg (div_nonneg hac0 (by norm_num)) hdt0) (by norm_num)
      have haux2 : (0:ℚ) ≤
          (h.vehicle_data.break_value / 5) * (t - h.last_update_time) * 5 :=
        mul_nonneg (mul_nonneg (div_nonneg hbr0 (by norm_num)) hdt0) (by norm_num)
      have haux3 : (0:ℚ) ≤ 5 * (t - h.last_update_time) :=
        mul_nonneg (by norm_num) hdt0
      push_cast
      split_ifs with h1 h2 h3 h4
      · exact ⟨le_min (by norm_num) (by linarith), min_le_left _ _⟩
      · exact ⟨le_max_left _ _, max_le (by norm_num) (by linarith)⟩
      · exact ⟨le_max_left _ _, max_le (by norm_num) (by linarith)⟩
      · exact ⟨le_refl 0, by norm_num⟩
      · exact ⟨hsp0, hsp1⟩
    rw [show (300:ℚ) = ((300:ℤ):ℚ) by norm_num] at hb ⊢
    exact clamp_id (pyround_nonneg hb.1) (pyround_le_int hb.2)

theorem drivetrain_step_law_witness :
    (simulate_vehicle_data sampleScenario 1 {}).vehicle_data.rpm = 250
    ∧ (simulate_vehicle_data sampleScenario 1 {}).vehicle_data.speed_kmh = 25 := by
  have hlaw := drivetrain_step_law sampleScenario 1 {} rfl rfl rfl rfl rfl
    (by norm_num [sampleScenario])
    (by norm_num [sampleScenario, VehicleData.validate])
  constructor
  · rw [hlaw.1]
    norm_num [sampleScenario, isDrivingGear, pyround, rhe]
  · rw [hlaw.2]
    norm_num [sampleScenario, isDrivingGear, pyround, rhe]

/-- Effect of `start_maneuver` on a started vehicle. -/
theorem start_maneuver_started (h : ControlHandler) (nm : Option String)
    (hstart : h.vehicle_data.vehicle_started = true) :
    start_maneuver h nm = { h with vehicle_data :=
      { h.vehicle_data with maneuver_active := true, maneuver_name := nm } } := by
  unfold start_maneuver
  rw [if_pos hstart]

/-- The speed block under the ("Emergency Stop") preset: speed is
overwritten with 0 (then rounded), brake with 100, and the steering
angle — absent from the preset — keeps its current value. -/
theorem speed_update_emergency (v : VehicleData) (dt : ℚ)
    (hma : v.maneuver_active = true)
    (hmn : v.maneuver_name = some ("Emergency Stop")) :
    speed_update v dt = { v with speed_kmh := pyround 1 0, break_value := 100 } := by
  unfold speed_update
  rw [hma, hmn]
  simp [all_maneuver_presets_get]

/-- Claim C3: starting ("Emergency Stop") on a started vehicle and performing
one effective step yields speed 0 and brake 100, for every prior
accel_value; the preset's absent field (steering) keeps its current
value (the pre-step steering, assumed in range so the final clamp is
inert on it). -/
theorem emergency_stop_semantics (h : ControlHandler) (t : ℚ) (r : RandomDraws)
    (he : h.simulation_enabled = true) (hr : h.is_running = true)
    (hp : h.is_paused = false)
    (hstart : h.vehicle_data.vehicle_started = true)
    (hst0 : -780 ≤ h.vehicle_data.steering_wheel_angle)
    (hst1 : h.vehicle_data.steering_wheel_angle ≤ 780) :
    (simulate_vehicle_data (start_maneuver h (some ("Emergency Stop"))) t
        r).vehicle_data.speed_kmh = 0
    ∧ (simulate_vehicle_data (start_maneuver h (some ("Emergency Stop"))) t
        r).vehicle_data.break_value = 100
    ∧ (simulate_vehicle_data (start_maneuver h (some ("Emergency Stop"))) t
        r).vehicle_data.steering_wheel_angle
      = h.vehicle_data.steering_wheel_angle := by
  rw [start_maneuver_started h _ hstart]
  rw [simulate_active { h with vehicle_data := { h.vehicle_data with
    maneuver_active := true
    maneuver_name := some ("Emergency Stop") } } t r he hr hp]
  rw [if_pos (show ({ h.vehicle_data with
      maneuver_active := true
      maneuver_name := some ("Emergency Stop") } : VehicleData).vehicle_started
      = true from hstart)]
  rw [speed_update_emergency _ _ (by rw [rpm_update_active]) (by rw [rpm_update_name])]
  refine ⟨?_, ?_, ?_⟩
  · simp only [clamp_limits_speed, pose_update_speed, odometer_update_speed,
      pyround_zero]
    norm_num
  · simp only [clamp_limits_break, pose_update_break, odometer_update_break]
    norm_num
  · simp only [clamp_limits_steering, pose_update_steering,
      odometer_update_steering]
    exact clamp_id hst0 hst1

theorem emergency_stop_semantics_witness :
    (simulate_vehicle_data (start_maneuver sampleDriving (some ("Emergency Stop")))
        1 {}).vehicle_data.speed_kmh = 0
    ∧ (simulate_vehicle_data (start_maneuver sampleDriving (some ("Emergency Stop")))
        1 {}).vehicle_data.break_value = 100
    ∧ (simulate_vehicle_data (start_maneuver sampleDriving (some ("Emergency Stop")))
        1 {}).vehicle_data.steering_wheel_angle
      = sampleDriving.vehicle_data.steering_wheel_angle :=
  emergency_stop_semantics sampleDriving 1 {} rfl rfl rfl rfl
    (by norm_num [sampleDriving]) (by norm_num [sampleDriving])

/-- Claim C5: `set_gear(g)` assigns the gear exactly when the vehicle is
started or `g` is ("P") or ("N") (for any string `g`); when the condition
fails the handler — every `VehicleData` field included — is returned
unchanged (the model is a total function, so no exception is
possible). -/
theorem set_gear_spec (h : ControlHandler) (g : String) :
    ((h.vehicle_data.vehicle_started = true ∨ g = "P" ∨ g = "N") →
      set_gear h g = { h with vehicle_data := { h.vehicle_data with gear := g } })
    ∧ (h.vehicle_data.vehicle_started = false → g ≠ "P" → g ≠ "N" →
      set_gear h g = h) := by
  unfold set_gear
  constructor
  · intro hc
    rw [if_pos]
    rcases hc with hc | hc | hc <;> simp [hc]
  · intro h1 h2 h3
    rw [if_neg]
    simp [h1, h2, h3]

theorem set_gear_spec_witness :
    set_gear sampleOff ("D") = sampleOff ∧ sampleOff.vehicle_data.gear = "N" :=
  ⟨(set_gear_spec sampleOff ("D")).2 rfl (by decide) (by decide), rfl⟩

/-- Claim C6 counterexample: for a record `d` naming `vehicle_started := true`,
the claim's conjuncts conflict — after `reset_vehicle(d)` the
`vehicle_started` field named in `d` does NOT hold `d`'s value, because
the reset forces it to false after the copy loop. -/
theorem reset_started_counterexample :
    sampleStartedDict.vehicle_started = some true
    ∧ (reset_vehicle sampleResetPre sampleStartedDict
        0).vehicle_data.vehicle_started = false :=
  ⟨rfl, rfl⟩

/-- Claim C6 (amended): for every dict `d` — partial, out-of-range or
otherwise — after `reset_vehicle(d, now)` every field named in `d`
other than `vehicle_started`/`maneuver_active` holds `d`'s value
(fields not named keep their current value); `vehicle_started` and
`maneuver_active` are forced false regardless of `d`, `maneuver_name`
is cleared, the handler resumes running and unpaused with its step
timer at `now`; and whenever `d` provides the six validated fields
with values in range, `validate()` holds after the reset. -/
theorem reset_vehicle_spec (h : ControlHandler) (d : InitDict) (now : ℚ) :
    ((reset_vehicle h d now).vehicle_data.rpm = d.rpm.getD h.vehicle_data.rpm
    ∧ (reset_vehicle h d now).vehicle_data.speed_kmh = d.speed_kmh.getD h.vehicle_data.speed_kmh
    ∧ (reset_vehicle h d now).vehicle_data.odometer_km = d.odometer_km.getD h.vehicle_data.odometer_km
    ∧ (reset_vehicle h d now).vehicle_data.gear = d.gear.getD h.vehicle_data.gear
    ∧ (reset_vehicle h d now).vehicle_data.pos_x_m = d.pos_x_m.getD h.vehicle_data.pos_x_m
    ∧ (reset_vehicle h d now).vehicle_data.pos_y_m = d.pos_y_m.getD h.vehicle_data.pos_y_m
    ∧ (reset_vehicle h d now).vehicle_data.pos_z_m = d.pos_z_m.getD h.vehicle_data.pos_z_m
    ∧ (reset_vehicle h d now).vehicle_data.angle_roll_deg = d.angle_roll_deg.getD h.vehicle_data.angle_roll_deg
    ∧ (reset_vehicle h d now).vehicle_data.angle_pitch_deg = d.angle_pitch_deg.getD h.vehicle_data.angle_pitch_deg
    ∧ (reset_vehicle h d now).vehicle_data.angle_yaw_deg = d.angle_yaw_deg.getD h.vehicle_data.angle_yaw_deg
    ∧ (reset_vehicle h d now).vehicle_data.roll_rate_degs = d.roll_rate_degs.getD h.vehicle_data.roll_rate_degs
    ∧ (reset_vehicle h d now).vehicle_data.pitch_rate_degs = d.pitch_rate_degs.getD h.vehicle_data.pitch_rate_degs
    ∧ (reset_vehicle h d now).vehicle_data.yaw_rate_degs = d.yaw_rate_degs.getD h.vehicle_data.yaw_rate_degs
    ∧ (reset_vehicle h d now).vehicle_data.clutch_value = d.clutch_value.getD h.vehicle_data.clutch_value
    ∧ (reset_vehicle h d now).vehicle_data.break_value = d.break_value.getD h.vehicle_data.break_value
    ∧ (reset_vehicle h d now).vehicle_data.accel_value = d.accel_value.getD h.vehicle_data.accel_value
    ∧ (reset_vehicle h d now).vehicle_data.steering_wheel_angle = d.steering_wheel_angle.getD h.vehicle_data.steering_wheel_angle)
    ∧ ((reset_vehicle h d now).vehicle_data.vehicle_started = false
    ∧ (reset_vehicle h d now).vehicle_data.maneuver_active = false
    ∧ (reset_vehicle h d now).vehicle_data.maneuver_name = none)
    ∧ ((reset_vehicle h d now).is_running = true
    ∧ (reset_vehicle h d now).is_paused = false
    ∧ (reset_vehicle h d now).last_update_time = now
    ∧ (d.validRanges = true →
        (reset_vehicle h d now).vehicle_data.validate = true)) := by
  refine ⟨⟨rfl, rfl, rfl, rfl, rfl, rfl, rfl, rfl, rfl, rfl, rfl, rfl, rfl,
    rfl, rfl, rfl, rfl⟩, ⟨rfl, rfl, rfl⟩, rfl, rfl, rfl, ?_⟩
  intro hd
  rcases hrpm : d.rpm with _ | rpm <;>
    rcases hsp : d.speed_kmh with _ | sp <;>
    rcases hst : d.steering_wheel_angle with _ | st <;>
    rcases hcl : d.clutch_value with _ | cl <;>
    rcases hbr : d.break_value with _ | br <;>
    rcases hac : d.accel_value with _ | ac <;>
    simp [InitDict.validRanges, hrpm, hsp, hst, hcl, hbr, hac, and_assoc] at hd
  simp [reset_vehicle, applyInitDict, VehicleData.validate,
    hrpm, hsp, hst, hcl, hbr, hac, and_assoc]
  exact hd

theorem reset_vehicle_spec_witness :
    (reset_vehicle sampleResetPre default_config_record.vehicle_data
      5).vehicle_data.validate = true :=
  (reset_vehicle_spec sampleResetPre default_config_record.vehicle_data
      5).2.2.2.2.2
    (by norm_num [InitDict.validRanges, default_config_record])

theorem rpm_update_odometer (v : VehicleData) (dt : ℚ) :
    (rpm_update v dt).odometer_km = v.odometer_km := rfl

/-- One odometer block cannot decrease the odometer when the current
odometer sits on the 3-decimal grid and `dt ≥ 0`; the result is on the
grid again. -/
theorem odometer_update_mono (v : VehicleData) (dt : ℚ) (hdt : 0 ≤ dt)
    (hgrid : (v.odometer_km * 1000).den = 1) :
    v.odometer_km ≤ (odometer_update v dt).odometer_km
    ∧ ((odometer_update v dt).odometer_km * 1000).den = 1 := by
  unfold odometer_update
  split
  · rename_i hpos
    constructor
    · have hm : v.odometer_km * 10 ^ 3
          = (((v.odometer_km * 1000).num : ℤ) : ℚ) := by
        rw [show ((10:ℚ) ^ 3) = 1000 by norm_num]
        exact ((Rat.den_eq_one_iff _).mp hgrid).symm
      have hle : v.odometer_km
          ≤ v.odometer_km + (v.speed_kmh / 3600) * dt := by
        have : (0:ℚ) ≤ (v.speed_kmh / 3600) * dt :=
          mul_nonneg (div_nonneg (le_of_lt hpos) (by norm_num)) hdt
        linarith
      exact le_pyround_of_int_mul hm hle
    · show ((pyround 3 _) * 1000).den = 1
      rw [show ((1000:ℚ)) = 10 ^ 3 by norm_num, pyround_mul_pow]
      exact Rat.den_intCast _
  · exact ⟨le_refl _, hgrid⟩

/-- One full step cannot decrease a grid-aligned odometer. -/
theorem odometer_step_mono (h : ControlHandler) (t : ℚ) (r : RandomDraws)
    (hdt : h.last_update_time ≤ t)
    (hgrid : (h.vehicle_data.odometer_km * 1000).den = 1) :
    h.vehicle_data.odometer_km
      ≤ (simulate_vehicle_data h t r).vehicle_data.odometer_km
    ∧ (((simulate_vehicle_data h t r).vehicle_data.odometer_km * 1000).den = 1) := by
  cases he : h.simulation_enabled with
  | false => rw [simulate_inactive h t r (Or.inl he)]; exact ⟨le_refl _, hgrid⟩
  | true =>
    cases hr : h.is_running with
    | false =>
      rw [simulate_inactive h t r (Or.inr (Or.inl hr))]
      exact ⟨le_refl _, hgrid⟩
    | true =>
      cases hp : h.is_paused with
      | true =>
        rw [simulate_inactive h t r (Or.inr (Or.inr hp))]
        exact ⟨le_refl _, hgrid⟩
      | false =>
        rw [simulate_active h t r he hr hp]
        cases hs : h.vehicle_data.vehicle_started with
        | false =>
          simp only [hs, Bool.false_eq_true, if_false, clamp_limits_odometer]
          exact ⟨le_refl _, hgrid⟩
        | true =>
          simp only [hs, if_true, clamp_limits_odometer, pose_update_odometer]
          have hkey := odometer_update_mono
            (speed_update (rpm_update h.vehicle_data (t - h.last_update_time))
              (t - h.last_update_time))
            (t - h.last_update_time) (sub_nonneg.mpr hdt)
            (by rw [speed_update_odometer, rpm_update_odometer]; exact hgrid)
          rw [speed_update_odometer, rpm_update_odometer] at hkey
          exact hkey

/-- Claim C4 (amended): across any finite sequence of steps, each with
`dt ≥ 0`, the odometer never decreases — provided the starting odometer
is an integer multiple of 0.001 (the 3-decimal grid on which every
odometer write lands). -/
theorem odometer_monotone_grid (h : ControlHandler)
    (L : List (ℚ × RandomDraws))
    (hgrid : (h.vehicle_data.odometer_km * 1000).den = 1)
    (hL : dts_nonneg h L) :
    h.vehicle_data.odometer_km ≤ (stepSeq h L).vehicle_data.odometer_km := by
  induction L generalizing h with
  | nil => exact le_refl _
  | cons p rest ih =>
    obtain ⟨t, r⟩ := p
    obtain ⟨hdt, hrest⟩ := hL
    have hstep := odometer_step_mono h t r hdt hgrid
    calc h.vehicle_data.odometer_km
        ≤ (simulate_vehicle_data h t r).vehicle_data.odometer_km := hstep.1
      _ ≤ (stepSeq (simulate_vehicle_data h t r) rest).vehicle_data.odometer_km :=
          ih _ hstep.2 hrest

theorem odometer_monotone_grid_witness :
    sampleScenario.vehicle_data.odometer_km
      ≤ (stepSeq sampleScenario [(1, {})]).vehicle_data.odometer_km :=
  odometer_monotone_grid sampleScenario [(1, {})]
    (by norm_num [sampleScenario])
    (by exact ⟨by norm_num [sampleScenario], trivial⟩)

/-- Claim C4 counterexample: one step with `dt = 10⁻⁶ ≥ 0` strictly decreases
the odometer (0.0004 rounds down to 0 after the tiny increment), so the
odometer is not non-decreasing over arbitrary step sequences. -/
theorem odometer_monotone_counterexample :
    sampleOdoDrift.last_update_time ≤ 1/1000000
    ∧ (simulate_vehicle_data sampleOdoDrift (1/1000000) {}).vehicle_data.odometer_km
      < sampleOdoDrift.vehicle_data.odometer_km := by
  constructor
  · norm_num [sampleOdoDrift]
  · norm_num [sampleOdoDrift, simulate_vehicle_data, rpm_update, speed_update,
      odometer_update, pose_update, clamp_limits, pyround, rhe, isDrivingGear,
      all_maneuver_presets_get]

/-- Claim C8 counterexample: requesting an absent bare-filename path
("other.json", whose `os.path.dirname` is empty) makes `load_config`
raise `FileNotFoundError` from the uncaught
`os.makedirs('', exist_ok=True)` — it neither writes the defaults to
that path nor returns them, refuting both the "writes the default
configuration to that path" and the "in neither case does load_config
raise" parts of the claim. -/
theorem load_config_path_counterexample :
    sampleFSEmpty ("other.json") = none
    ∧ load_config sampleCM sampleFSEmpty (some ("other.json"))
        = Except.error PyError.fileNotFound := by
  refine ⟨rfl, ?_⟩
  simp [load_config, sampleFSEmpty, has_parent_dir, sampleCM]

/-- Claim C8 (amended): when the requested file is absent and the
requested path has a nonempty parent directory (and so does the
manager's configured path), `load_config` returns the in-memory
defaults and writes them to the configured path `self.config_file` —
not necessarily to the requested path; when the requested file is
absent and the requested path is a bare filename, the uncaught
`os.makedirs('')` raises `FileNotFoundError` and nothing is written;
when the file exists but is malformed, `load_config` returns the
defaults without raising and leaves the file system entirely
unmodified. -/
theorem load_config_policy (cm : ConfigManager) (fs : FS) (p : String) :
    (fs p = none → has_parent_dir p = true →
        has_parent_dir cm.config_file = true →
      load_config cm fs (some p)
        = Except.ok (writeFile fs cm.config_file
            (FileContent.valid cm.default_config), cm.default_config))
    ∧ (fs p = none → has_parent_dir p = false →
      load_config cm fs (some p) = Except.error PyError.fileNotFound)
    ∧ (fs p = some FileContent.malformed →
      load_config cm fs (some p) = Except.ok (fs, cm.default_config)) := by
  refine ⟨?_, ?_, ?_⟩
  · intro habs hp hcf
    simp [load_config, habs, hp, save_config, hcf]
  · intro habs hp
    simp [load_config, habs, hp]
  · intro hmal
    simp [load_config, hmal]

theorem load_config_policy_witness :
    load_config sampleCM sampleFSEmpty (some ("data/config.json"))
      = Except.ok (writeFile sampleFSEmpty sampleCM.config_file
          (FileContent.valid sampleCM.default_config),
        sampleCM.default_config) :=
  (load_config_policy sampleCM sampleFSEmpty ("data/config.json")).1 rfl
    (by decide) (by decide)

/-- Loading right after a successful save at the same path yields the
saved record (the loaded file parses, so no directory creation runs). -/
theorem load_after_save (cm : ConfigManager) (fs : FS) (c : Config) (p : String) :
    load_config cm (writeFile fs p (FileContent.valid c)) (some p)
      = Except.ok (writeFile fs p (FileContent.valid c), c) := by
  simp [load_config, writeFile]

/-- Rebuilding a `VehicleData` from its serialized dict restores every
dataclass field (`maneuver_name` is not a dataclass field: the rebuilt
object starts without it). -/
theorem ofDict_toDict (v : VehicleData) :
    VehicleData.ofDict (vehicleDataToDict v) = { v with maneuver_name := none } := by
  rcases v with ⟨⟩
  rfl

/-- Claim C9: serializing a `VehicleData` into the configuration record
(as `save_config_dialog` does), saving it to a path with a parent
directory (as the file dialog produces), re-loading it, and rebuilding
a `VehicleData` from the loaded `vehicle_data` sub-record reproduces
the configuration record and every dataclass field of the original
`VehicleData`. -/
theorem save_load_roundtrip (cm : ConfigManager) (fs : FS) (cfg : Config)
    (v : VehicleData) (p : String) (hp : has_parent_dir p = true) :
    save_config cm fs { cfg with vehicle_data := vehicleDataToDict v } (some p)
      = Except.ok (writeFile fs p
          (FileContent.valid { cfg with vehicle_data := vehicleDataToDict v }))
    ∧ load_config cm (writeFile fs p
          (FileContent.valid { cfg with vehicle_data := vehicleDataToDict v }))
        (some p)
      = Except.ok (writeFile fs p
          (FileContent.valid { cfg with vehicle_data := vehicleDataToDict v }),
        { cfg with vehicle_data := vehicleDataToDict v })
    ∧ VehicleData.ofDict
        ({ cfg with vehicle_data := vehicleDataToDict v } : Config).vehicle_data
      = { v with maneuver_name := none } := by
  refine ⟨?_, load_after_save cm fs _ p, ofDict_toDict v⟩
  simp [save_config, hp]

theorem save_load_roundtrip_witness :
    VehicleData.ofDict
        ({ default_config_record with
          vehicle_data := vehicleDataToDict {} } : Config).vehicle_data
      = { ({} : VehicleData) with maneuver_name := none } :=
  (save_load_roundtrip sampleCM sampleFSEmpty default_config_record {}
    ("data/config.json") (by decide)).2.2

/-- The speed block with an active but unknown maneuver name: the dict
lookup yields the falsy empty dict, the preset assignments are skipped,
and only the unconditional `round(speed_kmh, 1)` fires. -/
theorem speed_update_unknown (v : VehicleData) (dt : ℚ)
    (hma : v.maneuver_active = true)
    (hun : all_maneuver_presets_get v.maneuver_name = none) :
    speed_update v dt = { v with speed_kmh := pyround 1 v.speed_kmh } := by
  unfold speed_update
  rw [hma]
  simp [hun, hma]

/-- Claim C10 counterexample: with an unknown active maneuver name and
pre-step speed 10.25, the step does NOT leave `speed_kmh` merely
clamped — the unconditional rounding to one decimal also fires, so the
post-step speed (10.2) differs from the clamp of the pre-step speed
(10.25). -/
theorem unknown_maneuver_counterexample :
    all_maneuver_presets_get sampleUnknown.vehicle_data.maneuver_name = none
    ∧ sampleUnknown.vehicle_data.maneuver_active = true
    ∧ (simulate_vehicle_data sampleUnknown 0 {}).vehicle_data.speed_kmh
      ≠ max 0 (min 300 sampleUnknown.vehicle_data.speed_kmh) := by
  refine ⟨rfl, rfl, ?_⟩
  rw [simulate_active sampleUnknown 0 {} rfl rfl rfl, if_pos
    (show sampleUnknown.vehicle_data.vehicle_started = true from rfl)]
  rw [speed_update_unknown _ _ (by rw [rpm_update_active]; rfl)
    (by rw [rpm_update_name]; rfl)]
  simp only [clamp_limits_speed, pose_update_speed, odometer_update_speed,
    rpm_update_speed]
  norm_num [sampleUnknown, pyround, rhe, min_def, max_def]

/-- Claim C10 (amended): `start_maneuver` records any name (including none)
whenever the vehicle is started; an effective step with an active but
unknown maneuver name leaves `steering_wheel_angle` and `break_value`
unchanged up to the final clamp, while `speed_kmh` is additionally
rounded to one decimal before that clamp. -/
theorem unknown_maneuver_step (h : ControlHandler) (t : ℚ) (r : RandomDraws)
    (nm : Option String)
    (he : h.simulation_enabled = true) (hr : h.is_running = true)
    (hp : h.is_paused = false)
    (hstart : h.vehicle_data.vehicle_started = true)
    (hma : h.vehicle_data.maneuver_active = true)
    (hun : all_maneuver_presets_get h.vehicle_data.maneuver_name = none) :
    (simulate_vehicle_data h t r).vehicle_data.speed_kmh
      = max 0 (min 300 (pyround 1 h.vehicle_data.speed_kmh))
    ∧ (simulate_vehicle_data h t r).vehicle_data.steering_wheel_angle
      = max (-780) (min 780 h.vehicle_data.steering_wheel_angle)
    ∧ (simulate_vehicle_data h t r).vehicle_data.break_value
      = max 0 (min 100 h.vehicle_data.break_value)
    ∧ (start_maneuver h nm).vehicle_data.maneuver_active = true
    ∧ (start_maneuver h nm).vehicle_data.maneuver_name = nm := by
  rw [simulate_active h t r he hr hp, if_pos hstart]
  rw [speed_update_unknown _ _ (by rw [rpm_update_active]; exact hma)
    (by rw [rpm_update_name]; exact hun)]
  refine ⟨?_, ?_, ?_, ?_, ?_⟩
  · simp only [clamp_limits_speed, pose_update_speed, odometer_update_speed,
      rpm_update_speed]
  · simp only [clamp_limits_steering, pose_update_steering,
      odometer_update_steering, rpm_update_steering]
  · simp only [clamp_limits_break, pose_update_break, odometer_update_break,
      rpm_update_break]
  · rw [start_maneuver_started h nm hstart]
  · rw [start_maneuver_started h nm hstart]

theorem unknown_maneuver_step_witness :
    (simulate_vehicle_data sampleUnknown 0 {}).vehicle_data.speed_kmh
      = max 0 (min 300 (pyround 1 sampleUnknown.vehicle_data.speed_kmh)) :=
  (unknown_maneuver_step sampleUnknown 0 {} none rfl rfl rfl rfl rfl rfl).1

end VCP
